import Mathlib

/-!
Verification of the data-source controller of the dify repository
(`api/controllers/console/datasets/data_source.py`).

The controller's persistent state (the SQLAlchemy session/database) is
modelled as an explicit `Store` record threaded through every operation.
Handlers that write do so by returning an updated `Store`; a raised
exception is an `Except.error` value, and — matching the source, where
writes reach the database only through `db.session.commit()` — an
operation that errors out before any commit returns the store unchanged.
-/

namespace DataSource

/-- One page icon object inside `source_info.pages[i].page_icon`. -/
structure Icon where
  type : String
  url : String
  emoji : String
deriving Repr, DecidableEq

/-- One importable page inside a binding's `source_info.pages`.
`is_bound` models the optional `'is_bound'` dictionary key: `none` when the
key is absent (as stored), `some b` once the handler has set it. -/
structure Page where
  page_id : String
  page_name : String
  page_icon : Option Icon
  parent_id : String
  page_type : String
  is_bound : Option Bool
deriving Repr, DecidableEq

/-- The structured `source_info` JSON of a `DataSourceBinding`. -/
structure SourceInfo where
  workspace_id : String
  workspace_name : String
  workspace_icon : String
  pages : List Page
deriving Repr, DecidableEq

/-- A row of the `data_source_bindings` table. -/
structure DataSourceBinding where
  id : String
  tenant_id : String
  provider : String
  access_token : String
  source_info : SourceInfo
  disabled : Bool
  created_at : Nat
  updated_at : Nat
deriving Repr, DecidableEq

/-- The provider-specific part of a document's `data_source_info` JSON that
the controller reads (`json.loads(document.data_source_info)['notion_page_id']`). -/
structure DocSourceInfo where
  notion_page_id : String
deriving Repr, DecidableEq

/-- A row of the `documents` table, restricted to the columns this
controller reads. -/
structure Document where
  id : String
  dataset_id : String
  tenant_id : String
  data_source_type : String
  data_source_info : DocSourceInfo
  enabled : Bool
deriving Repr, DecidableEq

/-- A row of the `datasets` table, restricted to the columns this
controller reads. -/
structure Dataset where
  id : String
  data_source_type : String
deriving Repr, DecidableEq

/-- The database state visible to this controller. -/
structure Store where
  bindings : List DataSourceBinding
  datasets : List Dataset
  documents : List Document
deriving Repr, DecidableEq

/-- Errors raised by the handlers: `werkzeug` `NotFound` and Python
`ValueError` (the spec's `InvalidStateTransition` / `UnsupportedSourceType`),
plus a failure of the task-runner handoff (the spec's `DispatchFailure`). -/
inductive ApiError where
  | notFound (msg : String)
  | valueError (msg : String)
  | dispatchFailure
deriving Repr, DecidableEq

/-- `DataSourceBinding.query.filter_by(id=binding_id).first()` — the lookup
used by the patch handler.  Note that it filters by `id` alone. -/
def findBinding (store : Store) (binding_id : String) : Option DataSourceBinding :=
  store.bindings.find? fun b => b.id == binding_id

/-- `db.session.add(binding); db.session.commit()`: persist an updated
binding row, replacing the row with the same `id`. -/
def commitBinding (store : Store) (b : DataSourceBinding) : Store :=
  { store with bindings := store.bindings.map fun x => if x.id == b.id then b else x }

/-- `DataSourceApi.patch(binding_id, action)` (lines 103–129 of the source).
The handler runs with a logged-in user whose tenant is `tenant_id`, but the
source never consults `current_user` here: the binding is looked up by `id`
alone, so `tenant_id` is an unused parameter, exactly as in the code.
`now` stands for `datetime.datetime.utcnow()`. -/
def dataSourceApiPatch (store : Store) (tenant_id binding_id action : String) (now : Nat) :
    Store × Except ApiError String :=
  match findBinding store binding_id with
  | none => (store, .error (.notFound "Data source binding not found."))
  | some data_source_binding =>
    -- the source uses two successive `if` statements on `action`; since
    -- `action` cannot equal both strings they behave as an if/else-if chain
    if action == "enable" then
      if data_source_binding.disabled then
        (commitBinding store { data_source_binding with disabled := false, updated_at := now },
         .ok "success")
      else
        (store, .error (.valueError "Data source is not disabled."))
    else if action == "disable" then
      if !data_source_binding.disabled then
        (commitBinding store { data_source_binding with disabled := true, updated_at := now },
         .ok "success")
      else
        (store, .error (.valueError "Data source is disabled."))
    else
      (store, .ok "success")

/-- One element of the `data` array returned by `DataSourceApi.get`
(the `integrate_fields` marshaling schema). -/
structure IntegrationEntry where
  id : Option String
  provider : String
  created_at : Option Nat
  is_bound : Bool
  disabled : Option Bool
  link : String
  source_info : Option SourceInfo
deriving Repr, DecidableEq

/-- Python truthiness of the object produced by `filter(...)`: a filter
iterator defines no `__bool__`/`__len__`, so it is truthy even when it
yields no elements.  The argument records which filter result was tested. -/
def filterObjectTruthy (_items : List α) : Bool :=
  true

/-- `DataSourceApi.get` (lines 62–98 of the source): list the tenant's
data-source integrations.  `base_url` is `request.url_root.rstrip('/')`. -/
def dataSourceApiGet (store : Store) (tenant_id base_url : String) : List IntegrationEntry :=
  let data_source_integrates := store.bindings.filter fun b =>
    b.tenant_id == tenant_id && b.disabled == false
  let data_source_oauth_base_path := "/console/api/oauth/data-source"
  let providers := ["notion"]
  providers.foldl
    (fun integrate_data provider =>
      let existing_integrates := data_source_integrates.filter fun item =>
        item.provider == provider
      -- `if existing_integrates:` in the source tests the filter object
      -- itself, so this branch is taken even when the filter is empty and
      -- the `else` placeholder below is unreachable.
      if filterObjectTruthy existing_integrates then
        integrate_data ++ existing_integrates.map fun existing_integrate =>
          { id := some existing_integrate.id
            provider := provider
            created_at := some existing_integrate.created_at
            is_bound := true
            disabled := some existing_integrate.disabled
            source_info := some existing_integrate.source_info
            link := base_url ++ data_source_oauth_base_path ++ "/" ++ provider }
      else
        integrate_data ++
          [{ id := none
             provider := provider
             created_at := none
             source_info := none
             is_bound := false
             disabled := none
             link := base_url ++ data_source_oauth_base_path ++ "/" ++ provider }])
    []

/-- Modelled from the spec: `DatasetService.get_dataset(dataset_id)` lives in
`services/dataset_service.py`, which is not part of the provided source; per
§4.3/§4.4 it fetches the dataset by identifier, absent giving `NotFound`
at the caller. -/
def getDataset (store : Store) (dataset_id : String) : Option Dataset :=
  store.datasets.find? fun d => d.id == dataset_id

/-- The `Document.query.filter_by(...)` call of `DataSourceNotionListApi.get`:
enabled notion-import documents of the dataset, scoped to the tenant. -/
def notionDocuments (store : Store) (dataset_id tenant_id : String) : List Document :=
  store.documents.filter fun d =>
    d.dataset_id == dataset_id && d.tenant_id == tenant_id &&
      d.data_source_type == "notion_import" && d.enabled

/-- Lines 160–178 of the source: build `exist_page_ids`.  `dataset_id` is
`request.args.get('dataset_id', default=None, type=str)`, so it is absent
(`none`) or a string; `if dataset_id:` is Python truthiness, under which the
empty string behaves like an absent parameter. -/
def existPageIds (store : Store) (tenant_id : String) (dataset_id : Option String) :
    Except ApiError (List String) :=
  match dataset_id with
  | none => .ok []
  | some ds_id =>
    if ds_id == "" then .ok []
    else
      match getDataset store ds_id with
      | none => .error (.notFound "Dataset not found.")
      | some dataset =>
        if dataset.data_source_type != "notion_import" then
          .error (.valueError "Dataset is not notion type.")
        else
          .ok ((notionDocuments store ds_id tenant_id).map fun document =>
            document.data_source_info.notion_page_id)

/-- The binding query of `DataSourceNotionListApi.get`: the tenant's
non-disabled notion bindings. -/
def activeNotionBindings (store : Store) (tenant_id : String) : List DataSourceBinding :=
  store.bindings.filter fun b =>
    b.tenant_id == tenant_id && b.provider == "notion" && b.disabled == false

/-- The inner loop of lines 193–198: set `page['is_bound']` according to
membership of the page id in `exist_page_ids`. -/
def annotatePage (exist_page_ids : List String) (page : Page) : Page :=
  if exist_page_ids.contains page.page_id then
    { page with is_bound := some true }
  else
    { page with is_bound := some false }

/-- One element of the returned `notion_info` list (the
`integrate_workspace_fields` marshaling schema of `DataSourceNotionListApi`). -/
structure WorkspacePageView where
  workspace_name : String
  workspace_icon : String
  workspace_id : String
  pages : List Page
deriving Repr, DecidableEq

/-- Lines 199–204: the `pre_import_info` dictionary built for one binding. -/
def preImportInfo (exist_page_ids : List String) (b : DataSourceBinding) : WorkspacePageView :=
  { workspace_name := b.source_info.workspace_name
    workspace_icon := b.source_info.workspace_icon
    workspace_id := b.source_info.workspace_id
    pages := b.source_info.pages.map (annotatePage exist_page_ids) }

/-- `DataSourceNotionListApi.get` (lines 160–209 of the source): the
reconciliation read returning the importable-pages view. -/
def listImportablePages (store : Store) (tenant_id : String) (dataset_id : Option String) :
    Except ApiError (List WorkspacePageView) :=
  match existPageIds store tenant_id dataset_id with
  | .error e => .error e
  | .ok exist_page_ids =>
    let data_source_bindings := activeNotionBindings store tenant_id
    if data_source_bindings.isEmpty then
      .ok []
    else
      .ok (data_source_bindings.map (preImportInfo exist_page_ids))

/-- `DataSourceNotionListApi.get` with the database state threaded through,
as for the writing handlers.  The handler only queries; it never calls
`db.session.add`/`commit`, and the `is_bound` keys it sets are on the
response objects — a JSON column mutated in place is not tracked by the
session and nothing is flushed afterwards — so the state it hands back is
the state it was given. -/
def listImportablePagesSt (store : Store) (tenant_id : String) (dataset_id : Option String) :
    Store × Except ApiError (List WorkspacePageView) :=
  (store, listImportablePages store tenant_id dataset_id)

/-- The `(dataset_id, document_id)` pair handed to
`document_indexing_sync_task.delay`. -/
structure SyncRequest where
  dataset_id : String
  document_id : String
deriving Repr, DecidableEq

/-- Modelled from the spec: `DocumentService.get_document_by_dataset_id`
lives in `services/dataset_service.py`, not part of the provided source; per
§4.4 it enumerates all documents of the dataset regardless of enabled
state. -/
def getDocumentByDatasetId (store : Store) (dataset_id : String) : List Document :=
  store.documents.filter fun d => d.dataset_id == dataset_id

/-- Modelled from the spec: `DocumentService.get_document(dataset_id,
document_id)` lives in `services/dataset_service.py`, not part of the
provided source; per §4.4 it resolves the document scoped to the dataset. -/
def getDocument (store : Store) (dataset_id document_id : String) : Option Document :=
  store.documents.find? fun d => d.id == document_id && d.dataset_id == dataset_id

/-- The `for document in documents: ....delay(...)` loop of
`DataSourceNotionDatasetSyncApi.get`.  `enq` models the task-runner handoff:
`false` means `.delay` raises (a `DispatchFailure`), which propagates out of
the loop; `enqueued` accumulates the requests already handed off. -/
def enqueueLoop (enq : SyncRequest → Bool) (dataset_id : String) :
    List Document → List SyncRequest → List SyncRequest × Except ApiError Unit
  | [], enqueued => (enqueued, .ok ())
  | document :: rest, enqueued =>
    let req : SyncRequest := ⟨dataset_id, document.id⟩
    if enq req then
      enqueueLoop enq dataset_id rest (enqueued ++ [req])
    else
      (enqueued, .error .dispatchFailure)

/-- `DataSourceNotionDatasetSyncApi.get(dataset_id)` (lines 263–272 of the
source).  Returns the requests handed to the task runner together with the
HTTP result (`200`) or the raised error. -/
def syncDataset (store : Store) (enq : SyncRequest → Bool) (dataset_id : String) :
    List SyncRequest × Except ApiError Nat :=
  match getDataset store dataset_id with
  | none => ([], .error (.notFound "Dataset not found."))
  | some _ =>
    let documents := getDocumentByDatasetId store dataset_id
    match enqueueLoop enq dataset_id documents [] with
    | (enqueued, .ok _) => (enqueued, .ok 200)
    | (enqueued, .error e) => (enqueued, .error e)

/-- `DataSourceNotionDocumentSyncApi.get(dataset_id, document_id)`
(lines 280–291 of the source). -/
def syncDocument (store : Store) (enq : SyncRequest → Bool)
    (dataset_id document_id : String) : List SyncRequest × Except ApiError Nat :=
  match getDataset store dataset_id with
  | none => ([], .error (.notFound "Dataset not found."))
  | some _ =>
    match getDocument store dataset_id document_id with
    | none => ([], .error (.notFound "Document not found."))
    | some _ =>
      let req : SyncRequest := ⟨dataset_id, document_id⟩
      if enq req then ([req], .ok 200)
      else ([], .error .dispatchFailure)

/-! Concrete fixtures, used by witnesses and counterexamples.  `demoStore`
is the spec's scenario: tenant `T` with one enabled notion binding for
workspace `W` holding pages `p1, p2`, and dataset `D` holding one enabled
document imported from `p1`. -/

def p1 : Page :=
  { page_id := "p1", page_name := "Page One", page_icon := none
    parent_id := "root", page_type := "page", is_bound := none }

def p2 : Page :=
  { p1 with page_id := "p2", page_name := "Page Two" }

def bindW : DataSourceBinding :=
  { id := "b1", tenant_id := "T", provider := "notion", access_token := "tok"
    source_info :=
      { workspace_id := "W", workspace_name := "WS", workspace_icon := "ic"
        pages := [p1, p2] }
    disabled := false, created_at := 1, updated_at := 1 }

def dsD : Dataset := { id := "D", data_source_type := "notion_import" }

def docP1 : Document :=
  { id := "d1", dataset_id := "D", tenant_id := "T"
    data_source_type := "notion_import", data_source_info := ⟨"p1"⟩, enabled := true }

def demoStore : Store := { bindings := [bindW], datasets := [dsD], documents := [docP1] }

def disabledBinding : DataSourceBinding := { bindW with id := "b2", disabled := true, updated_at := 3 }

def lifecycleStore : Store := { bindings := [disabledBinding], datasets := [], documents := [] }

def noBindingStore : Store := { bindings := [], datasets := [], documents := [] }

def sourceInfoW2 : SourceInfo :=
  { workspace_id := "W2", workspace_name := "WS2", workspace_icon := "ic2", pages := [] }

def bindW2 : DataSourceBinding :=
  { bindW with id := "b9", source_info := sourceInfoW2, created_at := 2, updated_at := 2 }

def twoNotionStore : Store := { bindings := [bindW, bindW2], datasets := [], documents := [] }

def docP2 : Document := { docP1 with id := "d2", data_source_info := ⟨"p2"⟩, enabled := false }

def docP3 : Document := { docP1 with id := "d3", data_source_info := ⟨"p3"⟩ }

def syncStore : Store := { bindings := [], datasets := [dsD], documents := [docP1, docP2, docP3] }

/-- A task runner whose handoff raises for document `d1` and succeeds for
every other document. -/
def failFirstEnq : SyncRequest → Bool := fun r => r.document_id != "d1"

/-- A task runner whose handoff raises for document `d2` and succeeds for
every other document. -/
def failMidEnq : SyncRequest → Bool := fun r => r.document_id != "d2"

/-! Theorems, one per claim of the specification. -/

/-- C4: for every binding id, enable and disable fail with `NotFound` when
no binding carries that id; on a `Disabled` binding, enable succeeds,
setting `disabled := false` and refreshing `updated_at`, while disable
fails with the invalid-transition error; symmetrically from `Enabled`; and
every failed call returns the store — hence the binding and its
`updated_at` — unchanged. -/
theorem C4_lifecycle_transitions (store : Store) (t bid : String) (now : Nat) :
    (findBinding store bid = none →
      dataSourceApiPatch store t bid "enable" now =
        (store, .error (.notFound "Data source binding not found.")) ∧
      dataSourceApiPatch store t bid "disable" now =
        (store, .error (.notFound "Data source binding not found."))) ∧
    (∀ b, findBinding store bid = some b →
      (b.disabled = true →
        dataSourceApiPatch store t bid "enable" now =
          (commitBinding store { b with disabled := false, updated_at := now }, .ok "success") ∧
        dataSourceApiPatch store t bid "disable" now =
          (store, .error (.valueError "Data source is disabled."))) ∧
      (b.disabled = false →
        dataSourceApiPatch store t bid "disable" now =
          (commitBinding store { b with disabled := true, updated_at := now }, .ok "success") ∧
        dataSourceApiPatch store t bid "enable" now =
          (store, .error (.valueError "Data source is not disabled.")))) := by
  constructor
  · intro h
    constructor <;> simp [dataSourceApiPatch, h]
  · intro b hb
    constructor
    · intro hd
      constructor <;> simp [dataSourceApiPatch, hb, hd]
    · intro hd
      constructor <;> simp [dataSourceApiPatch, hb, hd]

/-- Witness for C4 on the concrete disabled binding `b2`. -/
theorem C4_lifecycle_transitions_witness :
    findBinding lifecycleStore "b2" = some disabledBinding ∧
    disabledBinding.disabled = true ∧
    dataSourceApiPatch lifecycleStore "T" "b2" "enable" 9 =
      (commitBinding lifecycleStore { disabledBinding with disabled := false, updated_at := 9 },
        .ok "success") ∧
    dataSourceApiPatch lifecycleStore "T" "b2" "disable" 9 =
      (lifecycleStore, .error (.valueError "Data source is disabled.")) := by
  have h := ((C4_lifecycle_transitions lifecycleStore "T" "b2" 9).2 disabledBinding rfl).1 rfl
  exact ⟨rfl, rfl, h.1, h.2⟩

/-- C10: an existing binding together with any action other than `enable`
or `disable` makes the patch handler return success and leave the store
untouched. -/
theorem C10_unknown_action_noop (store : Store) (t bid action : String) (now : Nat)
    (b : DataSourceBinding) (hb : findBinding store bid = some b)
    (h1 : action ≠ "enable") (h2 : action ≠ "disable") :
    dataSourceApiPatch store t bid action now = (store, .ok "success") := by
  simp [dataSourceApiPatch, hb, h1, h2]

/-- Witness for C10 at the concrete action `refresh`. -/
theorem C10_unknown_action_noop_witness :
    findBinding lifecycleStore "b2" = some disabledBinding ∧
    ("refresh" : String) ≠ "enable" ∧ ("refresh" : String) ≠ "disable" ∧
    dataSourceApiPatch lifecycleStore "T" "b2" "refresh" 9 = (lifecycleStore, .ok "success") :=
  ⟨rfl, by decide, by decide,
    C10_unknown_action_noop lifecycleStore "T" "b2" "refresh" 9 disabledBinding rfl
      (by decide) (by decide)⟩

/-- C5 fails on the code: the patch handler looks a binding up by id alone
and never consults the invoking tenant, so tenant `OTHER` successfully
enables tenant `T`'s binding `b2` instead of receiving `NotFound`, and
the store is modified. -/
theorem C5_counterexample :
    disabledBinding.tenant_id = "T" ∧
    ("OTHER" : String) ≠ disabledBinding.tenant_id ∧
    findBinding lifecycleStore "b2" = some disabledBinding ∧
    (dataSourceApiPatch lifecycleStore "OTHER" "b2" "enable" 9).2 = .ok "success" ∧
    (dataSourceApiPatch lifecycleStore "OTHER" "b2" "enable" 9).1 ≠ lifecycleStore := by
  refine ⟨rfl, by decide, rfl, rfl, by decide⟩

/-- C5 amended: lifecycle transitions do not enforce tenant ownership — the
outcome of the patch handler is entirely independent of the invoking
tenant, so any tenant can transition any existing binding by id. -/
theorem C5_tenant_independent (store : Store) (t t' bid action : String) (now : Nat) :
    dataSourceApiPatch store t bid action now = dataSourceApiPatch store t' bid action now := rfl

/-- C3: the reconciliation read hands back the persistent state it was
given — every stored binding's `source_info`, page sequences included, is
identical before and after — and re-running it on the post-state returns
the same views. -/
theorem C3_no_store_mutation (store : Store) (t : String) (ds : Option String) :
    (listImportablePagesSt store t ds).1 = store ∧
    (listImportablePagesSt store t ds).1.bindings.map (fun b => b.source_info) =
      store.bindings.map (fun b => b.source_info) ∧
    listImportablePagesSt (listImportablePagesSt store t ds).1 t ds =
      listImportablePagesSt store t ds :=
  ⟨rfl, rfl, rfl⟩

/-- C2 names a code bug: on a tenant with zero non-disabled bindings the
handler returns an empty list — the unbound-placeholder `else` branch is
dead, because Python's `filter(...)` object is truthy even when empty —
instead of the one placeholder entry with `is_bound = false` that the
specification promises; with two bindings it does return exactly two
bound entries and no placeholder. -/
theorem C2_placeholder_unreachable :
    dataSourceApiGet noBindingStore "T" "http://x" = [] ∧
    (dataSourceApiGet twoNotionStore "T" "http://x").length = 2 ∧
    (dataSourceApiGet twoNotionStore "T" "http://x").all (fun e => e.is_bound) = true :=
  ⟨rfl, rfl, rfl⟩

/-- Setting `is_bound` in the page loop amounts to overriding the key with
the membership test, all other keys untouched. -/
theorem annotatePage_eq (exist_page_ids : List String) (page : Page) :
    annotatePage exist_page_ids page =
      { page with is_bound := some (exist_page_ids.contains page.page_id) } := by
  unfold annotatePage
  cases h : exist_page_ids.contains page.page_id <;> simp [h]

/-- Correctness of one reconciliation result: one view per active binding,
in store order, with workspace metadata preserved and each page equal to the
stored page except for `is_bound`, set exactly by membership of its
`page_id` in `exist_page_ids`. -/
def ReconcilesPages (store : Store) (tenant_id : String) (exist_page_ids : List String)
    (views : List WorkspacePageView) : Prop :=
  views.length = (activeNotionBindings store tenant_id).length ∧
  ∀ i (hv : i < views.length) (hb : i < (activeNotionBindings store tenant_id).length),
    (views.get ⟨i, hv⟩).workspace_name =
      ((activeNotionBindings store tenant_id).get ⟨i, hb⟩).source_info.workspace_name ∧
    (views.get ⟨i, hv⟩).workspace_id =
      ((activeNotionBindings store tenant_id).get ⟨i, hb⟩).source_info.workspace_id ∧
    (views.get ⟨i, hv⟩).workspace_icon =
      ((activeNotionBindings store tenant_id).get ⟨i, hb⟩).source_info.workspace_icon ∧
    (views.get ⟨i, hv⟩).pages.length =
      ((activeNotionBindings store tenant_id).get ⟨i, hb⟩).source_info.pages.length ∧
    ∀ j (hp : j < (views.get ⟨i, hv⟩).pages.length)
        (hq : j < ((activeNotionBindings store tenant_id).get ⟨i, hb⟩).source_info.pages.length),
      (views.get ⟨i, hv⟩).pages.get ⟨j, hp⟩ =
        { ((activeNotionBindings store tenant_id).get ⟨i, hb⟩).source_info.pages.get ⟨j, hq⟩ with
          is_bound := some (exist_page_ids.contains
            (((activeNotionBindings store tenant_id).get ⟨i, hb⟩).source_info.pages.get
              ⟨j, hq⟩).page_id) }

/-- C1: when the tenant has at least one non-disabled notion binding and
the imported-page-id set is built successfully (it is empty when no
`dataset_id` is supplied), the call returns one workspace view per binding,
each page annotated with `is_bound` exactly by membership in that set and
otherwise passed through unchanged, orders preserved. -/
theorem C1_reconciliation (store : Store) (t : String) (ds : Option String)
    (exist : List String)
    (hexist : existPageIds store t ds = .ok exist)
    (hbind : activeNotionBindings store t ≠ []) :
    (ds = none → exist = []) ∧
    ∃ views, listImportablePages store t ds = .ok views ∧ ReconcilesPages store t exist views := by
  constructor
  · intro h
    subst h
    simp [existPageIds] at hexist
    exact hexist
  · have hne : (activeNotionBindings store t).isEmpty = false := by
      cases h : activeNotionBindings store t with
      | nil => exact absurd h hbind
      | cons a l => rfl
    refine ⟨(activeNotionBindings store t).map (preImportInfo exist), ?_, ?_, ?_⟩
    · simp [listImportablePages, hexist, hne]
    · simp
    · intro i hv hb
      have hview : (((activeNotionBindings store t).map (preImportInfo exist)).get ⟨i, hv⟩) =
          preImportInfo exist ((activeNotionBindings store t).get ⟨i, hb⟩) := by
        simp [List.get_eq_getElem]
      rw [hview]
      refine ⟨rfl, rfl, rfl, by simp [preImportInfo], ?_⟩
      intro j hp hq
      have hpage : (preImportInfo exist ((activeNotionBindings store t).get ⟨i, hb⟩)).pages.get
            ⟨j, hp⟩ =
          annotatePage exist
            (((activeNotionBindings store t).get ⟨i, hb⟩).source_info.pages.get ⟨j, hq⟩) := by
        simp [preImportInfo, List.get_eq_getElem]
      rw [hpage, annotatePage_eq]

/-- Witness for C1 on the spec's scenario store: the imported set is
`[p1]`, and the single returned view for workspace `W` carries
`p1.is_bound = true` and `p2.is_bound = false`. -/
theorem C1_reconciliation_witness :
    existPageIds demoStore "T" (some "D") = .ok ["p1"] ∧
    activeNotionBindings demoStore "T" ≠ [] ∧
    listImportablePages demoStore "T" (some "D") =
      .ok [{ workspace_name := "WS", workspace_icon := "ic", workspace_id := "W"
             pages := [{ p1 with is_bound := some true }, { p2 with is_bound := some false }] }] ∧
    ((some "D" = (none : Option String) → (["p1"] : List String) = []) ∧
      ∃ views, listImportablePages demoStore "T" (some "D") = .ok views ∧
        ReconcilesPages demoStore "T" ["p1"] views) :=
  ⟨rfl, by decide, rfl,
    C1_reconciliation demoStore "T" (some "D") ["p1"] rfl (by decide)⟩

/-- C6 fails on the code as stated: `dataset_id` supplied as the empty
string is falsy in `if dataset_id:`, so the handler skips the dataset
lookup and succeeds even though no dataset with that identifier exists,
instead of failing with `NotFound`. -/
theorem C6_counterexample :
    getDataset noBindingStore "" = none ∧
    listImportablePages noBindingStore "T" (some "") = .ok [] := by
  exact ⟨rfl, rfl⟩

/-- The error behaviour of the reconciliation read for a non-empty
`dataset_id`: `NotFound` exactly when the dataset is absent,
the unsupported-source-type error exactly when it is present with a
non-notion source type, and an empty (non-error) result when the tenant has
no active notion bindings. -/
def ListPagesErrorBehavior (store : Store) (t s : String) : Prop :=
  (listImportablePages store t (some s) = .error (.notFound "Dataset not found.") ↔
    getDataset store s = none) ∧
  (listImportablePages store t (some s) = .error (.valueError "Dataset is not notion type.") ↔
    ∃ d, getDataset store s = some d ∧ d.data_source_type ≠ "notion_import") ∧
  (∀ d, getDataset store s = some d → d.data_source_type = "notion_import" →
    activeNotionBindings store t = [] → listImportablePages store t (some s) = .ok []) ∧
  (activeNotionBindings store t = [] → listImportablePages store t none = .ok [])

/-- C6 amended: with a supplied NON-EMPTY `dataset_id` the call fails with
`NotFound` exactly when the dataset does not exist and with the
unsupported-source-type error exactly when its source type is not
`notion_import`; a tenant without non-disabled notion bindings gets an
empty sequence, not an error.  (The empty string is falsy in the source's
`if dataset_id:` and behaves like an absent parameter.) -/
theorem C6_amended_errors (store : Store) (t s : String) (hs : s ≠ "") :
    ListPagesErrorBehavior store t s := by
  have hs' : (s == "") = false := by simp [hs]
  refine ⟨?_, ?_, ?_, ?_⟩
  · constructor
    · intro hc
      cases h : getDataset store s with
      | none => rfl
      | some d =>
        exfalso
        by_cases hd : d.data_source_type = "notion_import"
        · by_cases hb : activeNotionBindings store t = [] <;>
            simp [listImportablePages, existPageIds, hs', h, hd, hb] at hc
        · simp [listImportablePages, existPageIds, hs', h, hd] at hc
    · intro h
      simp [listImportablePages, existPageIds, hs', h]
  · constructor
    · intro hc
      cases h : getDataset store s with
      | none => simp [listImportablePages, existPageIds, hs', h] at hc
      | some d =>
        refine ⟨d, rfl, ?_⟩
        intro hd
        by_cases hb : activeNotionBindings store t = [] <;>
          simp [listImportablePages, existPageIds, hs', h, hd, hb] at hc
    · rintro ⟨d, hd1, hd2⟩
      simp [listImportablePages, existPageIds, hs', hd1, hd2]
  · intro d h hd hb
    simp [listImportablePages, existPageIds, hs', h, hd, hb]
  · intro hb
    simp [listImportablePages, existPageIds, hb]

/-- Witness for C6 amended at the concrete dataset `D`. -/
theorem C6_amended_errors_witness :
    ("D" : String) ≠ "" ∧ ListPagesErrorBehavior demoStore "T" "D" :=
  ⟨by decide, C6_amended_errors demoStore "T" "D" (by decide)⟩

/-- Closed form of the sync loop: the requests handed off are exactly those
of the longest prefix of documents whose handoff succeeds, and the loop
raises `DispatchFailure` as soon as one handoff fails. -/
theorem enqueueLoop_eq (enq : SyncRequest → Bool) (dataset_id : String)
    (docs : List Document) (acc : List SyncRequest) :
    enqueueLoop enq dataset_id docs acc =
      (acc ++ (docs.takeWhile fun d => enq ⟨dataset_id, d.id⟩).map
          fun d => (⟨dataset_id, d.id⟩ : SyncRequest),
        if docs.all (fun d => enq ⟨dataset_id, d.id⟩) then .ok ()
        else .error .dispatchFailure) := by
  induction docs generalizing acc with
  | nil => simp [enqueueLoop]
  | cons d rest ih =>
    by_cases h : enq ⟨dataset_id, d.id⟩ = true
    · simp [enqueueLoop, h, ih]
    · simp [enqueueLoop, h]

/-- A take-while with a constantly true predicate keeps the whole list. -/
theorem takeWhile_true_eq (l : List α) : l.takeWhile (fun _ => true) = l := by
  induction l with
  | nil => rfl
  | cons a t ih => simp [List.takeWhile, ih]

/-- C7: with a task runner whose handoffs all succeed, `syncDataset` fails
with `NotFound` exactly when the dataset is absent (enqueuing nothing), and
otherwise enqueues exactly one request per document of the dataset — every
document id, enabled or not — and returns the accepted status. -/
theorem C7_sync_dataset (store : Store) (ds : String) :
    (getDataset store ds = none →
      syncDataset store (fun _ => true) ds = ([], .error (.notFound "Dataset not found."))) ∧
    (getDataset store ds ≠ none →
      syncDataset store (fun _ => true) ds =
        ((getDocumentByDatasetId store ds).map fun d => (⟨ds, d.id⟩ : SyncRequest), .ok 200)) := by
  constructor
  · intro h
    simp [syncDataset, h]
  · intro h
    obtain ⟨d, hd⟩ := Option.ne_none_iff_exists.mp h
    simp [syncDataset, ← hd, enqueueLoop_eq, takeWhile_true_eq]

/-- Witness for C7 on a dataset with three documents, one of them
disabled: exactly three requests are enqueued, one per document id. -/
theorem C7_sync_dataset_witness :
    getDataset syncStore "D" ≠ none ∧
    docP2.enabled = false ∧
    syncDataset syncStore (fun _ => true) "D" =
      ([⟨"D", "d1"⟩, ⟨"D", "d2"⟩, ⟨"D", "d3"⟩], .ok 200) := by
  refine ⟨by decide, rfl, ?_⟩
  rw [(C7_sync_dataset syncStore "D").2 (by decide)]
  rfl

/-- C8: with a task runner whose handoffs all succeed, `syncDocument` fails
with `NotFound` when the dataset is absent, or when the document scoped to
the dataset is absent, enqueuing nothing in either case; otherwise it
enqueues exactly the one request for the pair. -/
theorem C8_sync_document (store : Store) (ds doc : String) :
    (getDataset store ds = none →
      syncDocument store (fun _ => true) ds doc =
        ([], .error (.notFound "Dataset not found."))) ∧
    (getDataset store ds ≠ none → getDocument store ds doc = none →
      syncDocument store (fun _ => true) ds doc =
        ([], .error (.notFound "Document not found."))) ∧
    (getDataset store ds ≠ none → getDocument store ds doc ≠ none →
      syncDocument store (fun _ => true) ds doc = ([⟨ds, doc⟩], .ok 200)) := by
  refine ⟨?_, ?_, ?_⟩
  · intro h
    simp [syncDocument, h]
  · intro h1 h2
    obtain ⟨d, hd⟩ := Option.ne_none_iff_exists.mp h1
    simp [syncDocument, ← hd, h2]
  · intro h1 h2
    obtain ⟨d, hd⟩ := Option.ne_none_iff_exists.mp h1
    obtain ⟨dc, hdc⟩ := Option.ne_none_iff_exists.mp h2
    simp [syncDocument, ← hd, ← hdc]

/-- Witness for C8: a missing document id gives `NotFound` with nothing
enqueued, and an existing one gives exactly one request. -/
theorem C8_sync_document_witness :
    getDataset syncStore "D" ≠ none ∧
    getDocument syncStore "D" "missing" = none ∧
    syncDocument syncStore (fun _ => true) "D" "missing" =
      ([], .error (.notFound "Document not found.")) ∧
    getDocument syncStore "D" "d1" ≠ none ∧
    syncDocument syncStore (fun _ => true) "D" "d1" = ([⟨"D", "d1"⟩], .ok 200) := by
  refine ⟨by decide, by decide, ?_, by decide, ?_⟩
  · exact (C8_sync_document syncStore "D" "missing").2.1 (by decide) (by decide)
  · exact (C8_sync_document syncStore "D" "d1").2.2 (by decide) (by decide)

/-- C9 fails on the code: on a dataset with three documents and a runner
that rejects the first handoff but would accept the other two, the loop
aborts at the first failure — nothing is enqueued, the later documents are
never attempted, and the call surfaces the bare failure, not a count of
succeeded versus failed enqueues. -/
theorem C9_counterexample :
    (getDocumentByDatasetId syncStore "D").map (fun d => d.id) = ["d1", "d2", "d3"] ∧
    failFirstEnq ⟨"D", "d2"⟩ = true ∧
    failFirstEnq ⟨"D", "d3"⟩ = true ∧
    syncDataset syncStore failFirstEnq "D" = ([], .error .dispatchFailure) :=
  ⟨rfl, rfl, rfl, rfl⟩

/-- C9 amended: a `DispatchFailure` aborts `syncDataset` at the first
failing document — exactly the documents strictly before it are enqueued,
the rest are never attempted, and the call reports the bare failure (or the
accepted status when every handoff succeeds); no counts are returned. -/
theorem C9_abort_on_first_failure (store : Store) (enq : SyncRequest → Bool) (ds : String)
    (h : getDataset store ds ≠ none) :
    syncDataset store enq ds =
      (((getDocumentByDatasetId store ds).takeWhile fun d => enq ⟨ds, d.id⟩).map
          fun d => (⟨ds, d.id⟩ : SyncRequest),
        if (getDocumentByDatasetId store ds).all (fun d => enq ⟨ds, d.id⟩) then .ok 200
        else .error .dispatchFailure) := by
  obtain ⟨d, hd⟩ := Option.ne_none_iff_exists.mp h
  by_cases hall : (getDocumentByDatasetId store ds).all (fun d => enq ⟨ds, d.id⟩) = true <;>
    simp [syncDataset, ← hd, enqueueLoop_eq, hall]

/-- Witness for C9 amended: the runner rejects document `d2`, so exactly
the request for `d1` is enqueued and the call fails. -/
theorem C9_abort_on_first_failure_witness :
    getDataset syncStore "D" ≠ none ∧
    syncDataset syncStore failMidEnq "D" =
      (((getDocumentByDatasetId syncStore "D").takeWhile fun d => failMidEnq ⟨"D", d.id⟩).map
          fun d => (⟨"D", d.id⟩ : SyncRequest),
        if (getDocumentByDatasetId syncStore "D").all (fun d => failMidEnq ⟨"D", d.id⟩) then
          .ok 200
        else .error .dispatchFailure) ∧
    syncDataset syncStore failMidEnq "D" = ([⟨"D", "d1"⟩], .error .dispatchFailure) :=
  ⟨by decide, C9_abort_on_first_failure syncStore failMidEnq "D" (by decide), rfl⟩

end DataSource
